import Mathlib

/-!
# wall-eno status page: the polling-and-render cycle

A shallow embedding of the script of `src/wall-page.h` (the `updateValues`
function and the two statements that start it), together with the parts of
the page it writes to.  The browser pieces the script leans on (the outcome of
`fetch`, the outcome of `response.json()`, the wording of engine-raised
`TypeError`s) are inputs of the model; the language rules the script's
behaviour depends on (property reads, conversion of a value to the text of a
node, `Error.prototype.toString`, `Number::toString`) are spelled out.
-/

namespace WallEno

/-! ## JavaScript values -/

/-- An `Error` object as far as the page can observe it: `name` and `message`. -/
structure JSError where
  name : String
  message : String
deriving DecidableEq, Repr

/-- The text `Error.prototype.toString` gives, which is what `"..." + err` appends. -/
def JSError.toString (e : JSError) : String :=
  if e.name = "" then e.message
  else if e.message = "" then e.name
  else e.name ++ ": " ++ e.message

/-- A JavaScript Number, identified by the decimal decomposition that
`Number::toString` works on: a finite non-zero value is `± s × 10 ^ (n - k)` where
`s` is its shortest round-trip digit string read as an integer and `k` the number of
digits of `s`. -/
inductive JSNumber where
  | nan
  | infinity (negative : Bool)
  | zero (negative : Bool)
  | finite (negative : Bool) (s : Nat) (n : Int)
deriving DecidableEq, Repr

/-- Steps 6 to 10 of `Number::toString` (radix 10) for the digits `s` and the
decimal point position `n`. -/
def JSNumber.digitsToString (s : Nat) (n : Int) : String :=
  let ds := Nat.toDigits 10 s
  let k : Int := ds.length
  if k ≤ n ∧ n ≤ 21 then
    String.mk (ds ++ List.replicate (n - k).toNat '0')
  else if 0 < n ∧ n ≤ 21 then
    String.mk (ds.take n.toNat ++ '.' :: ds.drop n.toNat)
  else if -6 < n ∧ n ≤ 0 then
    String.mk ('0' :: '.' :: List.replicate (-n).toNat '0' ++ ds)
  else
    let sign : Char := if n - 1 < 0 then '-' else '+'
    let expo := Nat.toDigits 10 (n - 1).natAbs
    match ds with
    | [] => String.mk ('e' :: sign :: expo)
    | [d] => String.mk (d :: 'e' :: sign :: expo)
    | d :: rest => String.mk (d :: '.' :: rest ++ 'e' :: sign :: expo)

/-- The text `Number::toString` gives for a Number. -/
def JSNumber.toString : JSNumber → String
  | .nan => "NaN"
  | .zero _ => "0"
  | .infinity false => "Infinity"
  | .infinity true => "-Infinity"
  | .finite false s n => JSNumber.digitsToString s n
  | .finite true s n => "-" ++ JSNumber.digitsToString s n

/-- The values the script can hold in `data` and in its properties: what
`JSON.parse` builds, plus `undefined` for a property that is not there.  An
object is its own properties, one entry per key. -/
inductive JSValue where
  | undefined
  | null
  | bool (b : Bool)
  | number (x : JSNumber)
  | string (s : String)
  | array (items : List JSValue)
  | object (props : List (String × JSValue))

/-- Wording of the `TypeError`s the engine raises; it differs between engines. -/
structure Engine where
  nullAccessMessage : String → String
  toPrimitiveMessage : String

/-- The read `data.key` for a key that no built-in prototype defines (the five
keys `updateValues` reads are such): it throws on `null` and `undefined`, gives
the own property of an object, and `undefined` everywhere else. -/
def JSValue.get (E : Engine) (v : JSValue) (key : String) : Except JSError JSValue :=
  match v with
  | .undefined => .error ⟨"TypeError", E.nullAccessMessage key⟩
  | .null => .error ⟨"TypeError", E.nullAccessMessage key⟩
  | .object props => .ok ((props.lookup key).getD .undefined)
  | _ => .ok .undefined

mutual
/-- The abstract operation `ToString` on a value.  An object is converted by
`OrdinaryToPrimitive` with hint string: an own `toString` property (never callable
in parsed JSON) hides `Object.prototype.toString`, and then no primitive is found;
an array is converted by `Array.prototype.join`. -/
def JSValue.toStringJS (E : Engine) : JSValue → Except JSError String
  | .undefined => .ok "undefined"
  | .null => .ok "null"
  | .bool true => .ok "true"
  | .bool false => .ok "false"
  | .number x => .ok x.toString
  | .string s => .ok s
  | .array items => JSValue.join E items
  | .object props =>
    if props.any (fun p => p.1 == "toString") then
      .error ⟨"TypeError", E.toPrimitiveMessage⟩
    else .ok "[object Object]"
/-- `Array.prototype.join` with the default separator: `null` and `undefined`
elements give the empty string, the others are converted by `ToString`, and a
comma goes between two elements. -/
def JSValue.join (E : Engine) : List JSValue → Except JSError String
  | [] => .ok ""
  | x :: rest =>
    match (match x with
      | .undefined => .ok ""
      | .null => .ok ""
      | w => JSValue.toStringJS E w : Except JSError String) with
    | .error e => .error e
    | .ok a =>
      match rest with
      | [] => .ok a
      | y :: more =>
        match JSValue.join E (y :: more) with
        | .error e => .error e
        | .ok b => .ok (a ++ "," ++ b)
end

/-- Conversion of a value to the `DOMString?` a `textContent` setter takes:
`null` and `undefined` become the missing string, everything else goes through
`ToString`. -/
def JSValue.toDOMString (E : Engine) (v : JSValue) : Except JSError (Option String) :=
  match v with
  | .undefined => .ok none
  | .null => .ok none
  | w => (JSValue.toStringJS E w).map some

/-! ## The page -/

/-- The five elements of the page that the script writes to, by their `id`. -/
inductive ElementId where
  | home_power
  | home_raw
  | wallbox_power
  | wallbox_current
  | error_block
deriving DecidableEq, Repr

/-- The text content of the five elements. -/
structure Display where
  home_power : String
  home_raw : String
  wallbox_power : String
  wallbox_current : String
  error_block : String
deriving DecidableEq, Repr

/-- The page as it is served: a dash in each of the four spans, an empty error block. -/
def html_page : Display :=
  { home_power := "-", home_raw := "-", wallbox_power := "-", wallbox_current := "-",
    error_block := "" }

/-- The effect of `document.getElementById(id).textContent = text` on the page. -/
def Display.setTextContent (d : Display) (id : ElementId) (text : String) : Display :=
  match id with
  | .home_power => { d with home_power := text }
  | .home_raw => { d with home_raw := text }
  | .wallbox_power => { d with wallbox_power := text }
  | .wallbox_current => { d with wallbox_current := text }
  | .error_block => { d with error_block := text }

/-- The character the markup puts between a value and its unit: U+202F NARROW
NO-BREAK SPACE (bytes `e2 80 af` in lines 141, 146 and 147 of the page). -/
def unitSeparator : String := "\u202f"

/-- Text of the cell `<td class="value"><span id="home-power">-</span>&#x202F;kW</td>`,
the separator being the character U+202F itself in the markup. -/
def Display.homeValueCell (d : Display) : String := d.home_power ++ unitSeparator ++ "kW"

/-- Text of the cell `<td class="extra">(raw: <span id="home-raw">-</span>)</td>`,
with an ordinary space after the colon. -/
def Display.homeExtraCell (d : Display) : String := "(raw: " ++ d.home_raw ++ ")"

/-- Text of the cell `<td class="value"><span id="wallbox-power">-</span>&#x202F;kW</td>`,
the separator being the character U+202F itself in the markup. -/
def Display.wallboxValueCell (d : Display) : String :=
  d.wallbox_power ++ unitSeparator ++ "kW"

/-- Text of the cell `<td class="extra">(<span id="wallbox-current">-</span>&#x202F;A)</td>`,
the separator being the character U+202F itself in the markup. -/
def Display.wallboxExtraCell (d : Display) : String :=
  "(" ++ d.wallbox_current ++ unitSeparator ++ "A)"

/-- The style rule `#error-block:empty { display: none; }`: the block is rendered
only when it has text. -/
def Display.errorBlockVisible (d : Display) : Bool := d.error_block != ""

/-! ## The poll cycle -/

/-- The constant `UPDATE_INTERVAL` of the script, in milliseconds. -/
def UPDATE_INTERVAL : Nat := 6000

/-- What the script sees of a response: the status code and what awaiting
`response.json()` gives, the parsed body or the rejection of the parser.  A
response with a null-body status (204 and 205 among the codes 200 to 299) reaches
the script without a body, and `response.json()` rejects on it. -/
structure Response where
  status : Nat
  json : Except JSError JSValue

/-- The getter `response.ok`: the status is in the range 200 to 299. -/
def Response.ok (r : Response) : Bool := decide (200 ≤ r.status) && decide (r.status ≤ 299)

/-- What awaiting `fetch("/wall-eno/json-status", ...)` gives: a rejection with
the transport error, or a response. -/
inductive FetchOutcome where
  | rejected (err : JSError)
  | resolved (response : Response)

/-- How a run of statements ends: normally, or by a thrown error; either way
with the page as the statements executed so far left it. -/
inductive Completion where
  | normal (d : Display)
  | throw (err : JSError) (d : Display)
deriving DecidableEq, Repr

/-- Run `next` after a statement that completed normally; a throw skips it. -/
def Completion.andThen (c : Completion) (next : Display → Completion) : Completion :=
  match c with
  | .normal d => next d
  | .throw err d => .throw err d

/-- The page a completion leaves behind. -/
def Completion.display : Completion → Display
  | .normal d => d
  | .throw _ d => d

/-- The statement `document.getElementById(id).textContent = v`: the setter
converts `v`, which may throw, and replaces the text of the element, with the
empty text for a missing string. -/
def assignTextContent (E : Engine) (id : ElementId) (v : JSValue) (d : Display) : Completion :=
  match JSValue.toDOMString E v with
  | .error err => .throw err d
  | .ok text => .normal (d.setTextContent id (text.getD ""))

/-- The statement `document.getElementById(id).textContent = data.key`. -/
def assignProperty (E : Engine) (id : ElementId) (data : JSValue) (key : String)
    (d : Display) : Completion :=
  match JSValue.get E data key with
  | .error err => .throw err d
  | .ok v => assignTextContent E id v d

/-- The body of the `try` block of `updateValues`. -/
def tryBlock (E : Engine) (o : FetchOutcome) (d : Display) : Completion :=
  match o with
  | .rejected err => .throw err d
  | .resolved response =>
    if !response.ok then .throw ⟨"Error", Nat.repr response.status⟩ d
    else
      match response.json with
      | .error err => .throw err d
      | .ok data =>
        (((((Completion.normal d).andThen
          (assignProperty E .home_power data "homePower")).andThen
          (assignProperty E .home_raw data "homeRaw")).andThen
          (assignProperty E .wallbox_power data "wallboxPower")).andThen
          (assignProperty E .wallbox_current data "wallboxCurrent")).andThen
          (assignProperty E .error_block data "error")

/-- The fixed text the `catch` block puts before the caught error. -/
def failureText : String := "Failed to update wall-eno status: "

/-- The body of the `catch (err)` block of `updateValues`. -/
def catchBlock (E : Engine) (err : JSError) (d : Display) : Completion :=
  assignTextContent E .error_block (.string (failureText ++ err.toString)) d

/-- One call of `updateValues`, from the call to the settling of its promise:
the `try` block, and the `catch` block when the `try` block throws. -/
def updateValues (E : Engine) (o : FetchOutcome) (d : Display) : Completion :=
  match tryBlock E o d with
  | .normal d1 => .normal d1
  | .throw err d1 => catchBlock E err d1

/-- The page from the time the script starts: its text, the interval timer
(`some ms` while one is registered), the start times of the cycles run so far
(latest first, in milliseconds from the start of the script) and the errors that
escaped a cycle. -/
structure Page where
  display : Display
  timer : Option Nat
  started : List Nat
  escaped : List JSError
deriving DecidableEq, Repr

/-- One cycle run on the page at time `now`. -/
def Page.cycle (E : Engine) (p : Page) (now : Nat) (o : FetchOutcome) : Page :=
  match updateValues E o p.display with
  | .normal d => { p with display := d, started := now :: p.started }
  | .throw err d =>
    { p with display := d, started := now :: p.started, escaped := err :: p.escaped }

/-- The cycles the timer starts, one per period for as long as a timer is
registered, each with the next outcome of the network; a cycle is taken to
settle before the next tick. -/
def Page.ticks (E : Engine) (p : Page) (now : Nat) : List FetchOutcome → Page
  | [] => p
  | o :: rest =>
    match p.timer with
    | none => p
    | some period => (p.cycle E (now + period) o).ticks E (now + period) rest

/-- The two statements that end the script, `updateValues();` and
`setInterval(updateValues, UPDATE_INTERVAL);`, followed by the ticks of the timer:
`first` is the outcome of the immediate poll, `later` the outcomes of the polls
the timer starts. -/
def start (E : Engine) (d : Display) (first : FetchOutcome) (later : List FetchOutcome) : Page :=
  let p0 : Page := { display := d, timer := none, started := [], escaped := [] }
  let p1 := p0.cycle E 0 first
  let p2 := { p1 with timer := some UPDATE_INTERVAL }
  p2.ticks E 0 later

/-! ## The status document of the specification -/

/-- The reading `homeRaw`, which the specification allows to be a number or a string. -/
inductive RawReading where
  | numeric (x : JSNumber)
  | text (s : String)
deriving DecidableEq, Repr

/-- The value of a raw reading in a parsed document. -/
def RawReading.toValue : RawReading → JSValue
  | .numeric x => .number x
  | .text s => .string s

/-- The text form of a raw reading. -/
def RawReading.toString : RawReading → String
  | .numeric x => x.toString
  | .text s => s

/-- The status snapshot of the specification: three numbers, a raw reading and
an error string. -/
structure StatusSnapshot where
  homePower : JSNumber
  homeRaw : RawReading
  wallboxPower : JSNumber
  wallboxCurrent : JSNumber
  error : String
deriving DecidableEq, Repr

/-- A parsed body is a well-formed status document carrying the snapshot `s`:
it is an object whose five keys hold values of the expected kinds. -/
def IsStatusDocument (data : JSValue) (s : StatusSnapshot) : Prop :=
  ∃ props, data = .object props ∧
    props.lookup "homePower" = some (.number s.homePower) ∧
    props.lookup "homeRaw" = some s.homeRaw.toValue ∧
    props.lookup "wallboxPower" = some (.number s.wallboxPower) ∧
    props.lookup "wallboxCurrent" = some (.number s.wallboxCurrent) ∧
    props.lookup "error" = some (.string s.error)

/-- The document with exactly the five keys, in the order of the specification. -/
def StatusSnapshot.toDocument (s : StatusSnapshot) : JSValue :=
  .object [("homePower", .number s.homePower), ("homeRaw", s.homeRaw.toValue),
    ("wallboxPower", .number s.wallboxPower), ("wallboxCurrent", .number s.wallboxCurrent),
    ("error", .string s.error)]

/-- The page after a cycle that rendered the snapshot `s`. -/
def StatusSnapshot.render (s : StatusSnapshot) : Display :=
  { home_power := s.homePower.toString, home_raw := s.homeRaw.toString,
    wallbox_power := s.wallboxPower.toString, wallbox_current := s.wallboxCurrent.toString,
    error_block := s.error }

/-- An engine with the wording of V8, for evaluating the model on examples. -/
def v8 : Engine :=
  { nullAccessMessage := fun key =>
      "Cannot read properties of null (reading \x27" ++ key ++ "\x27)",
    toPrimitiveMessage := "Cannot convert object to primitive value" }

/-- The scenario document of the specification: 2.3 kW at home (raw 2312), a
wallbox limit of 7.4 kW and 32 A, no error. -/
def scenario : StatusSnapshot :=
  { homePower := .finite false 23 1, homeRaw := .numeric (.finite false 2312 4),
    wallboxPower := .finite false 74 1, wallboxCurrent := .finite false 32 2, error := "" }

/-- The read of a property followed by its conversion to the text of a node, as
one statement of the `try` block performs them. -/
def readText (E : Engine) (data : JSValue) (key : String) : Except JSError (Option String) :=
  match JSValue.get E data key with
  | .error err => .error err
  | .ok v => JSValue.toDOMString E v

/-- The text written for a property that is absent or holds a number or a
string; `none` for a property of another kind. -/
def shownText : Option JSValue → Option String
  | none => some ""
  | some (.number x) => some x.toString
  | some (.string s) => some s
  | some _ => none

/-- A body with `homePower` 1 and an object with a `toString` key under `homeRaw`,
as in the JSON text
`{"homePower":1,"homeRaw":{"toString":0},"wallboxPower":2,"wallboxCurrent":3,"error":""}`. -/
def oddRawDocument : JSValue :=
  .object [("homePower", .number (.finite false 1 1)),
    ("homeRaw", .object [("toString", .number (.zero false))]),
    ("wallboxPower", .number (.finite false 2 1)),
    ("wallboxCurrent", .number (.finite false 3 1)), ("error", .string "")]

/-- A body without the key `wallboxCurrent`, as in the JSON text
`{"homePower":2.3,"homeRaw":2312,"wallboxPower":7.4,"error":""}`. -/
def shortDocument : JSValue :=
  .object [("homePower", .number (.finite false 23 1)),
    ("homeRaw", .number (.finite false 2312 4)),
    ("wallboxPower", .number (.finite false 74 1)), ("error", .string "")]

/-- The first result a cycle can have: the response has a success status, its
body parses, the five properties convert to the texts `t1` to `t5`, and the cycle
ends with all five elements written with these texts. -/
def AllWritten (E : Engine) (o : FetchOutcome) (prior : Display) : Prop :=
  ∃ r data t1 t2 t3 t4 t5, o = .resolved r ∧ r.ok = true ∧ r.json = .ok data ∧
    readText E data "homePower" = .ok t1 ∧ readText E data "homeRaw" = .ok t2 ∧
    readText E data "wallboxPower" = .ok t3 ∧ readText E data "wallboxCurrent" = .ok t4 ∧
    readText E data "error" = .ok t5 ∧
    updateValues E o prior
      = .normal { home_power := Option.getD t1 "", home_raw := Option.getD t2 "",
                  wallbox_power := Option.getD t3 "", wallbox_current := Option.getD t4 "",
                  error_block := Option.getD t5 "" }

/-- The second result a cycle can have: the `try` block throws `err` before it
has written anything, and the cycle ends with the prior page in which only the
error block has changed, to the failure text followed by the string form of `err`. -/
def OnlyErrorWritten (E : Engine) (o : FetchOutcome) (prior : Display) : Prop :=
  ∃ err : JSError, tryBlock E o prior = .throw err prior ∧
    updateValues E o prior
      = .normal { prior with error_block := failureText ++ err.toString }

/-! ## The number a text denotes -/

/-- The rational a Number stands for; none for `NaN` and the infinities. -/
def JSNumber.value : JSNumber → Option ℚ
  | .nan => none
  | .infinity _ => none
  | .zero _ => some 0
  | .finite false s n => some ((s : ℚ) * 10 ^ (n - ((Nat.toDigits 10 s).length : Int)))
  | .finite true s n => some (-((s : ℚ) * 10 ^ (n - ((Nat.toDigits 10 s).length : Int))))

/-- The natural number a run of decimal digits denotes. -/
def readDigits (ds : List Char) : Nat :=
  ds.foldl (fun acc c => 10 * acc + (c.toNat - 48)) 0

/-- The integer an exponent part denotes: a sign and digits. -/
def readExponent : List Char → Int
  | '-' :: ds => -(readDigits ds : Int)
  | '+' :: ds => (readDigits ds : Int)
  | _ => 0

/-- The rational a mantissa (digits with an optional fraction after a point)
denotes when scaled by the power of ten `e`. -/
def readMantissa (mant : List Char) (e : Int) : ℚ :=
  let whole := mant.takeWhile (fun c => c != '.')
  let frac := (mant.dropWhile (fun c => c != '.')).drop 1
  (readDigits (whole ++ frac) : ℚ) * 10 ^ (e - (frac.length : Int))

/-- The rational an unsigned decimal text denotes: a mantissa, and an optional
exponent after `e`. -/
def readUnsigned (cs : List Char) : ℚ :=
  readMantissa (cs.takeWhile (fun c => c != 'e'))
    (readExponent ((cs.dropWhile (fun c => c != 'e')).drop 1))

/-- The rational a decimal text with an optional leading minus sign denotes. -/
def readNumberText (t : String) : ℚ :=
  match t.data with
  | '-' :: cs => -readUnsigned cs
  | cs => readUnsigned cs

/-- A character that is one of the ten decimal digits. -/
def IsDigit (c : Char) : Prop := 48 ≤ c.toNat ∧ c.toNat ≤ 57

/-! ## Lemmas on the statements of the cycle -/

theorem toDOMString_string (E : Engine) (s : String) :
    JSValue.toDOMString E (.string s) = .ok (some s) := by
  simp [JSValue.toDOMString, JSValue.toStringJS, Except.map]

theorem toDOMString_number (E : Engine) (x : JSNumber) :
    JSValue.toDOMString E (.number x) = .ok (some x.toString) := by
  simp [JSValue.toDOMString, JSValue.toStringJS, Except.map]

theorem toDOMString_undefined (E : Engine) :
    JSValue.toDOMString E .undefined = .ok none := by
  simp [JSValue.toDOMString]

theorem assignProperty_ok (E : Engine) (id : ElementId) (data : JSValue) (key : String)
    (d : Display) (t : Option String) (h : readText E data key = .ok t) :
    assignProperty E id data key d = .normal (d.setTextContent id (t.getD "")) := by
  unfold readText at h
  unfold assignProperty assignTextContent
  cases hg : JSValue.get E data key with
  | error err => simp [hg] at h
  | ok v => simp [hg] at h; simp [h]

theorem assignProperty_error (E : Engine) (id : ElementId) (data : JSValue) (key : String)
    (d : Display) (err : JSError) (h : readText E data key = .error err) :
    assignProperty E id data key d = .throw err d := by
  unfold readText at h
  unfold assignProperty assignTextContent
  cases hg : JSValue.get E data key with
  | error e => simp [hg] at h; simp [h]
  | ok v => simp [hg] at h; simp [h]

theorem catchBlock_eq (E : Engine) (err : JSError) (d : Display) :
    catchBlock E err d = .normal { d with error_block := failureText ++ err.toString } := by
  simp [catchBlock, assignTextContent, toDOMString_string, Display.setTextContent]

theorem updateValues_rejected (E : Engine) (err : JSError) (d : Display) :
    updateValues E (.rejected err) d
      = .normal { d with error_block := failureText ++ err.toString } := by
  simp [updateValues, tryBlock, catchBlock_eq]

theorem updateValues_failure_status (E : Engine) (r : Response) (d : Display)
    (h : r.ok = false) :
    updateValues E (.resolved r) d
      = .normal { d with error_block :=
          failureText ++ JSError.toString ⟨"Error", Nat.repr r.status⟩ } := by
  simp [updateValues, tryBlock, h, catchBlock_eq]

theorem updateValues_json_error (E : Engine) (r : Response) (d : Display) (err : JSError)
    (h : r.ok = true) (hj : r.json = .error err) :
    updateValues E (.resolved r) d
      = .normal { d with error_block := failureText ++ err.toString } := by
  simp [updateValues, tryBlock, h, hj, catchBlock_eq]

theorem updateValues_written (E : Engine) (r : Response) (d : Display) (data : JSValue)
    (t1 t2 t3 t4 t5 : Option String) (h : r.ok = true) (hj : r.json = .ok data)
    (h1 : readText E data "homePower" = .ok t1) (h2 : readText E data "homeRaw" = .ok t2)
    (h3 : readText E data "wallboxPower" = .ok t3)
    (h4 : readText E data "wallboxCurrent" = .ok t4)
    (h5 : readText E data "error" = .ok t5) :
    updateValues E (.resolved r) d
      = .normal { home_power := t1.getD "", home_raw := t2.getD "",
                  wallbox_power := t3.getD "", wallbox_current := t4.getD "",
                  error_block := t5.getD "" } := by
  simp [updateValues, tryBlock, h, hj, Completion.andThen,
    assignProperty_ok E _ data _ _ _ h1, assignProperty_ok E _ data _ _ _ h2,
    assignProperty_ok E _ data _ _ _ h3, assignProperty_ok E _ data _ _ _ h4,
    assignProperty_ok E _ data _ _ _ h5, Display.setTextContent]

theorem readText_object (E : Engine) (props : List (String × JSValue)) (key : String) :
    readText E (.object props) key
      = JSValue.toDOMString E ((props.lookup key).getD .undefined) := by
  simp [readText, JSValue.get]

theorem response_ok_iff (r : Response) :
    r.ok = true ↔ 200 ≤ r.status ∧ r.status ≤ 299 := by
  simp [Response.ok]

theorem response_ok_false_iff (r : Response) :
    r.ok = false ↔ r.status < 200 ∨ 299 < r.status := by
  rw [← Bool.not_eq_true, response_ok_iff]
  omega

theorem toDigitsCore_ne_nil (b : Nat) :
    ∀ (fuel n : Nat) (ds : List Char), ds ≠ [] → Nat.toDigitsCore b fuel n ds ≠ [] := by
  intro fuel
  induction fuel with
  | zero => intro n ds h; simpa [Nat.toDigitsCore] using h
  | succ f ih =>
    intro n ds _
    simp only [Nat.toDigitsCore]
    split
    · simp
    · exact ih _ _ (by simp)

theorem toDigits_ne_nil (b n : Nat) : Nat.toDigits b n ≠ [] := by
  simp only [Nat.toDigits, Nat.toDigitsCore]
  split
  · simp
  · exact toDigitsCore_ne_nil b _ _ _ (by simp)

theorem repr_ne_empty (n : Nat) : Nat.repr n ≠ "" := by
  intro h
  have h1 : (Nat.toDigits 10 n) = [] := by
    have := congrArg String.data h
    simpa [Nat.repr, List.asString] using this
  exact toDigits_ne_nil 10 n h1

theorem statusError_toString (n : Nat) :
    JSError.toString ⟨"Error", Nat.repr n⟩ = "Error: " ++ Nat.repr n := by
  simp [JSError.toString, repr_ne_empty, String.append_assoc]

theorem readText_statusDocument (E : Engine) (data : JSValue) (s : StatusSnapshot)
    (h : IsStatusDocument data s) :
    readText E data "homePower" = .ok (some s.homePower.toString) ∧
    readText E data "homeRaw" = .ok (some s.homeRaw.toString) ∧
    readText E data "wallboxPower" = .ok (some s.wallboxPower.toString) ∧
    readText E data "wallboxCurrent" = .ok (some s.wallboxCurrent.toString) ∧
    readText E data "error" = .ok (some s.error) := by
  obtain ⟨props, rfl, h1, h2, h3, h4, h5⟩ := h
  refine ⟨?_, ?_, ?_, ?_, ?_⟩
  · simp [readText_object, h1, toDOMString_number]
  · cases hr : s.homeRaw <;>
      simp [readText_object, h2, hr, RawReading.toValue, RawReading.toString,
        toDOMString_number, toDOMString_string]
  · simp [readText_object, h3, toDOMString_number]
  · simp [readText_object, h4, toDOMString_number]
  · simp [readText_object, h5, toDOMString_string]

theorem updateValues_statusDocument (E : Engine) (r : Response) (d : Display)
    (data : JSValue) (s : StatusSnapshot) (h : r.ok = true) (hj : r.json = .ok data)
    (hdoc : IsStatusDocument data s) :
    updateValues E (.resolved r) d = .normal s.render := by
  obtain ⟨h1, h2, h3, h4, h5⟩ := readText_statusDocument E data s hdoc
  rw [updateValues_written E r d data _ _ _ _ _ h hj h1 h2 h3 h4 h5]
  simp [StatusSnapshot.render]

theorem isStatusDocument_toDocument (s : StatusSnapshot) :
    IsStatusDocument s.toDocument s :=
  ⟨_, rfl, by simp [List.lookup], by simp [List.lookup], by simp [List.lookup],
    by simp [List.lookup], by simp [List.lookup]⟩

theorem assignProperty_eq (E : Engine) (id : ElementId) (data : JSValue) (key : String)
    (d : Display) :
    assignProperty E id data key d =
      match readText E data key with
      | .error err => .throw err d
      | .ok t => .normal (d.setTextContent id (t.getD "")) := by
  cases h : readText E data key with
  | error err => simp [assignProperty_error E id data key d err h]
  | ok t => simp [assignProperty_ok E id data key d t h]

theorem updateValues_first_read_error (E : Engine) (r : Response) (d : Display)
    (data : JSValue) (err : JSError) (h : r.ok = true) (hj : r.json = .ok data)
    (h1 : readText E data "homePower" = .error err) :
    updateValues E (.resolved r) d
      = .normal { d with error_block := failureText ++ err.toString } := by
  simp [updateValues, tryBlock, h, hj, Completion.andThen, assignProperty_eq, h1,
    catchBlock_eq]

theorem get_ok_of_get_ok (E : Engine) (data : JSValue) (k1 k2 : String) (v1 : JSValue)
    (h : JSValue.get E data k1 = .ok v1) : ∃ v2, JSValue.get E data k2 = .ok v2 := by
  cases data <;> simp [JSValue.get] at h ⊢

theorem updateValues_normal (E : Engine) (o : FetchOutcome) (d : Display) :
    ∃ d1, updateValues E o d = .normal d1 := by
  unfold updateValues
  cases tryBlock E o d with
  | normal d1 => exact ⟨d1, rfl⟩
  | throw err d1 => exact ⟨_, catchBlock_eq E err d1⟩

theorem updateValues_idem (E : Engine) (o : FetchOutcome) (d : Display) :
    updateValues E o (updateValues E o d).display = updateValues E o d := by
  cases o with
  | rejected err => simp [updateValues_rejected, Completion.display]
  | resolved r =>
    cases hok : r.ok with
    | false => simp [updateValues_failure_status E r _ hok, Completion.display]
    | true =>
      cases hj : r.json with
      | error err => simp [updateValues_json_error E r _ err hok hj, Completion.display]
      | ok data =>
        cases h1 : readText E data "homePower" <;>
        cases h2 : readText E data "homeRaw" <;>
        cases h3 : readText E data "wallboxPower" <;>
        cases h4 : readText E data "wallboxCurrent" <;>
        cases h5 : readText E data "error" <;>
        simp [updateValues, tryBlock, hok, hj, Completion.andThen, assignProperty_eq,
          h1, h2, h3, h4, h5, catchBlock_eq, Completion.display, Display.setTextContent]

theorem readText_shown (E : Engine) (props : List (String × JSValue)) (key t : String)
    (h : shownText (props.lookup key) = some t) :
    ∃ u : Option String, readText E (.object props) key = .ok u ∧ u.getD "" = t := by
  rw [readText_object]
  cases hl : props.lookup key with
  | none =>
    rw [hl] at h
    simp only [shownText, Option.some.injEq] at h
    exact ⟨none, by simp [toDOMString_undefined], by simpa using h⟩
  | some v =>
    rw [hl] at h
    cases v <;> simp only [shownText, Option.some.injEq, reduceCtorEq] at h
    · exact ⟨some t, by simp [toDOMString_number, h], rfl⟩
    · exact ⟨some t, by simp [toDOMString_string, h], rfl⟩

theorem readText_nonObject (E : Engine) (data : JSValue) (key : String)
    (h : (∃ x, data = .number x) ∨ (∃ s, data = .string s) ∨ (∃ b, data = .bool b) ∨
      (∃ items, data = .array items)) :
    readText E data key = .ok none := by
  rcases h with ⟨x, rfl⟩ | ⟨x, rfl⟩ | ⟨x, rfl⟩ | ⟨x, rfl⟩ <;>
    simp [readText, JSValue.get, toDOMString_undefined]

theorem cycle_timer (E : Engine) (p : Page) (now : Nat) (o : FetchOutcome) :
    (p.cycle E now o).timer = p.timer := by
  unfold Page.cycle
  cases updateValues E o p.display <;> rfl

theorem cycle_started (E : Engine) (p : Page) (now : Nat) (o : FetchOutcome) :
    (p.cycle E now o).started = now :: p.started := by
  unfold Page.cycle
  cases updateValues E o p.display <;> rfl

theorem cycle_escaped (E : Engine) (p : Page) (now : Nat) (o : FetchOutcome) :
    (p.cycle E now o).escaped = p.escaped := by
  obtain ⟨d1, h⟩ := updateValues_normal E o p.display
  simp [Page.cycle, h]

theorem ticks_spec (E : Engine) (period : Nat) :
    ∀ (os : List FetchOutcome) (p : Page) (now : Nat), p.timer = some period →
      (p.ticks E now os).timer = some period ∧
      (p.ticks E now os).escaped = p.escaped ∧
      (p.ticks E now os).started.reverse
        = p.started.reverse ++ (List.range os.length).map (fun k => now + (k + 1) * period) := by
  intro os
  induction os with
  | nil => intro p now h; simp [Page.ticks, h]
  | cons o rest ih =>
    intro p now h
    have ht : (p.cycle E (now + period) o).timer = some period := by
      rw [cycle_timer, h]
    obtain ⟨i1, i2, i3⟩ := ih (p.cycle E (now + period) o) (now + period) ht
    simp only [Page.ticks, h]
    refine ⟨i1, by rw [i2, cycle_escaped], ?_⟩
    rw [i3, cycle_started, List.length_cons, List.range_succ_eq_map, List.map_cons,
      List.map_map, List.reverse_cons, List.append_assoc]
    congr 1
    simp only [List.singleton_append, zero_add, one_mul, List.cons.injEq, true_and]
    apply List.map_congr_left
    intro k _
    simp only [Function.comp_apply, Nat.succ_eq_add_one]
    ring

theorem tryBlock_written (E : Engine) (r : Response) (d : Display) (data : JSValue)
    (t1 t2 t3 t4 t5 : Option String) (h : r.ok = true) (hj : r.json = .ok data)
    (h1 : readText E data "homePower" = .ok t1) (h2 : readText E data "homeRaw" = .ok t2)
    (h3 : readText E data "wallboxPower" = .ok t3)
    (h4 : readText E data "wallboxCurrent" = .ok t4)
    (h5 : readText E data "error" = .ok t5) :
    tryBlock E (.resolved r) d
      = .normal { home_power := t1.getD "", home_raw := t2.getD "",
                  wallbox_power := t3.getD "", wallbox_current := t4.getD "",
                  error_block := t5.getD "" } := by
  simp [tryBlock, h, hj, Completion.andThen, assignProperty_eq, h1, h2, h3, h4, h5,
    Display.setTextContent]

theorem updateValues_of_throw (E : Engine) (o : FetchOutcome) (d d1 : Display)
    (err : JSError) (h : tryBlock E o d = .throw err d1) :
    updateValues E o d
      = .normal { d1 with error_block := failureText ++ err.toString } := by
  simp [updateValues, h, catchBlock_eq]

theorem onlyErrorWritten_of_throw (E : Engine) (o : FetchOutcome) (d : Display)
    (err : JSError) (h : tryBlock E o d = .throw err d) : OnlyErrorWritten E o d :=
  ⟨err, h, updateValues_of_throw E o d d err h⟩

theorem not_allWritten_and_onlyErrorWritten (E : Engine) (o : FetchOutcome) (d : Display) :
    ¬ (AllWritten E o d ∧ OnlyErrorWritten E o d) := by
  rintro ⟨⟨r, data, t1, t2, t3, t4, t5, rfl, hok, hj, h1, h2, h3, h4, h5, _⟩, err, ht, _⟩
  rw [tryBlock_written E r d data t1 t2 t3 t4 t5 hok hj h1 h2 h3 h4 h5] at ht
  cases ht

/-! ## Lemmas on the text of a number -/

theorem digitChar_spec (m : Nat) (h : m < 10) :
    IsDigit (Nat.digitChar m) ∧ (Nat.digitChar m).toNat - 48 = m := by
  interval_cases m <;> exact ⟨by unfold IsDigit; decide, by decide⟩

theorem isDigit_ne (c : Char) (h : IsDigit c) :
    (c != 'e') = true ∧ (c != '.') = true := by
  obtain ⟨h1, h2⟩ := h
  constructor <;>
  · simp only [bne_iff_ne, ne_eq]
    rintro rfl
    revert h1 h2
    decide

theorem foldl_digits (ys : List Char) :
    ∀ a : Nat, ys.foldl (fun acc c => 10 * acc + (c.toNat - 48)) a
      = a * 10 ^ ys.length + ys.foldl (fun acc c => 10 * acc + (c.toNat - 48)) 0 := by
  induction ys with
  | nil => intro a; simp
  | cons y ys ih =>
    intro a
    simp only [List.foldl_cons, List.length_cons]
    rw [ih (10 * a + (y.toNat - 48)), ih (10 * 0 + (y.toNat - 48))]
    ring

theorem readDigits_append (xs ys : List Char) :
    readDigits (xs ++ ys) = readDigits xs * 10 ^ ys.length + readDigits ys := by
  simp only [readDigits, List.foldl_append]
  exact foldl_digits ys _

theorem toDigitsCore_spec :
    ∀ (fuel n : Nat) (ds : List Char), n < fuel →
      ∃ xs, Nat.toDigitsCore 10 fuel n ds = xs ++ ds ∧ xs ≠ [] ∧
        (∀ c ∈ xs, IsDigit c) ∧ readDigits xs = n := by
  intro fuel
  induction fuel with
  | zero => intro n ds h; omega
  | succ f ih =>
    intro n ds h
    obtain ⟨hd, hv⟩ := digitChar_spec (n % 10) (Nat.mod_lt _ (by decide))
    simp only [Nat.toDigitsCore]
    split
    · rename_i h0
      refine ⟨[Nat.digitChar (n % 10)], rfl, by simp, by simpa using hd, ?_⟩
      simp only [readDigits, List.foldl_cons, List.foldl_nil, hv]
      omega
    · rename_i h0
      obtain ⟨xs, e1, _, e3, e4⟩ := ih (n / 10) (Nat.digitChar (n % 10) :: ds) (by omega)
      refine ⟨xs ++ [Nat.digitChar (n % 10)], by simp [e1], by simp, ?_, ?_⟩
      · intro c hc
        rcases List.mem_append.1 hc with hc | hc
        · exact e3 c hc
        · simp only [List.mem_singleton] at hc
          rw [hc]; exact hd
      · rw [readDigits_append, e4]
        simp only [readDigits, List.foldl_cons, List.foldl_nil, hv, List.length_singleton]
        omega

theorem toDigits_spec (s : Nat) :
    Nat.toDigits 10 s ≠ [] ∧ (∀ c ∈ Nat.toDigits 10 s, IsDigit c) ∧
      readDigits (Nat.toDigits 10 s) = s := by
  obtain ⟨xs, e1, e2, e3, e4⟩ := toDigitsCore_spec (s + 1) s [] (by omega)
  simp only [List.append_nil] at e1
  rw [Nat.toDigits, e1]
  exact ⟨e2, e3, e4⟩

theorem takeWhile_all (p : Char → Bool) (xs : List Char) (h : ∀ c ∈ xs, p c = true) :
    xs.takeWhile p = xs ∧ xs.dropWhile p = [] := by
  induction xs with
  | nil => simp
  | cons x xs ih =>
    have hx := h x (by simp)
    obtain ⟨i1, i2⟩ := ih (fun c hc => h c (by simp [hc]))
    simp [List.takeWhile, List.dropWhile, hx, i1, i2]

theorem takeWhile_stop (p : Char → Bool) (xs : List Char) (y : Char) (ys : List Char)
    (h : ∀ c ∈ xs, p c = true) (hy : p y = false) :
    (xs ++ y :: ys).takeWhile p = xs ∧ (xs ++ y :: ys).dropWhile p = y :: ys := by
  induction xs with
  | nil => simp [List.takeWhile, List.dropWhile, hy]
  | cons x xs ih =>
    have hx := h x (by simp)
    obtain ⟨i1, i2⟩ := ih (fun c hc => h c (by simp [hc]))
    simp [List.takeWhile, List.dropWhile, hx, i1, i2]


theorem readDigits_zeros (m : Nat) : readDigits (List.replicate m '0') = 0 := by
  induction m with
  | zero => rfl
  | succ m ih =>
    have h := readDigits_append ['0'] (List.replicate m '0')
    rw [List.replicate_succ]
    simp only [List.singleton_append] at h
    rw [h, ih]
    have h0 : readDigits ['0'] = 0 := by decide
    simp [h0]

theorem isDigit_zero : IsDigit '0' := by unfold IsDigit; decide

theorem readMantissa_whole (W : List Char) (e : Int) (hW : ∀ c ∈ W, IsDigit c) :
    readMantissa W e = (readDigits W : ℚ) * 10 ^ e := by
  obtain ⟨h1, h2⟩ := takeWhile_all (fun c => c != '.') W (fun c hc => (isDigit_ne c (hW c hc)).2)
  simp [readMantissa, h1, h2]

theorem readMantissa_point (W F : List Char) (e : Int) (hW : ∀ c ∈ W, IsDigit c) :
    readMantissa (W ++ '.' :: F) e
      = (readDigits (W ++ F) : ℚ) * 10 ^ (e - (F.length : Int)) := by
  obtain ⟨h1, h2⟩ := takeWhile_stop (fun c => c != '.') W '.' F
    (fun c hc => (isDigit_ne c (hW c hc)).2) (by decide)
  simp [readMantissa, h1, h2]

theorem readUnsigned_plain (M : List Char) (hM : ∀ c ∈ M, (c != 'e') = true) :
    readUnsigned M = readMantissa M 0 := by
  obtain ⟨h1, h2⟩ := takeWhile_all (fun c => c != 'e') M hM
  simp [readUnsigned, h1, h2, readExponent]

theorem readUnsigned_exp (M X : List Char) (hM : ∀ c ∈ M, (c != 'e') = true) :
    readUnsigned (M ++ 'e' :: X) = readMantissa M (readExponent X) := by
  obtain ⟨h1, h2⟩ := takeWhile_stop (fun c => c != 'e') M 'e' X hM (by decide)
  simp [readUnsigned, h1, h2]

theorem readExponent_signed (n : Int) :
    readExponent ((if n < 0 then '-' else '+') :: Nat.toDigits 10 n.natAbs) = n := by
  obtain ⟨_, _, hv⟩ := toDigits_spec n.natAbs
  split
  · simp only [readExponent, hv]; omega
  · simp only [readExponent, hv]; omega


theorem ne_e_of_digits (W : List Char) (hW : ∀ c ∈ W, IsDigit c) :
    ∀ c ∈ W, (c != 'e') = true :=
  fun c hc => (isDigit_ne c (hW c hc)).1

theorem readUnsigned_digitsToString (s : Nat) (n : Int) :
    readUnsigned (JSNumber.digitsToString s n).data
      = (s : ℚ) * 10 ^ (n - ((Nat.toDigits 10 s).length : Int)) := by
  obtain ⟨hne, hdig, hval⟩ := toDigits_spec s
  unfold JSNumber.digitsToString
  generalize Nat.toDigits 10 s = D at hne hdig hval
  simp only
  by_cases c1 : (D.length : Int) ≤ n ∧ n ≤ 21
  · -- digits followed by zeros
    rw [if_pos c1]
    have hall : ∀ c ∈ D ++ List.replicate (n - (D.length : Int)).toNat '0', IsDigit c := by
      intro c hc
      rcases List.mem_append.1 hc with hc | hc
      · exact hdig c hc
      · rw [List.eq_of_mem_replicate hc]; exact isDigit_zero
    rw [readUnsigned_plain _ (ne_e_of_digits _ hall), readMantissa_whole _ _ hall,
      readDigits_append, readDigits_zeros, hval, List.length_replicate]
    have hm : ((n - (D.length : Int)).toNat : Int) = n - D.length :=
      Int.toNat_of_nonneg (by omega)
    have hp : (10 : ℚ) ^ (n - (D.length : Int)) = (10 : ℚ) ^ (n - (D.length : Int)).toNat := by
      rw [← zpow_natCast, hm]
    rw [hp]
    push_cast
    ring
  rw [if_neg c1]
  by_cases c2 : 0 < n ∧ n ≤ 21
  · -- a point inside the digits
    rw [if_pos c2]
    have hW : ∀ c ∈ D.take n.toNat, IsDigit c := fun c hc => hdig c (List.mem_of_mem_take hc)
    have hF : ∀ c ∈ D.drop n.toNat, IsDigit c := fun c hc => hdig c (List.mem_of_mem_drop hc)
    have hM : ∀ c ∈ D.take n.toNat ++ '.' :: D.drop n.toNat, (c != 'e') = true := by
      intro c hc
      rcases List.mem_append.1 hc with hc | hc
      · exact (isDigit_ne c (hW c hc)).1
      · rcases List.mem_cons.1 hc with hc | hc
        · rw [hc]; decide
        · exact (isDigit_ne c (hF c hc)).1
    rw [readUnsigned_plain _ hM, readMantissa_point _ _ _ hW, List.take_append_drop, hval,
      List.length_drop]
    congr 2
    omega
  rw [if_neg c2]
  by_cases c3 : -6 < n ∧ n ≤ 0
  · -- zeros between the point and the digits
    rw [if_pos c3]
    have hF : ∀ c ∈ List.replicate (-n).toNat '0' ++ D, IsDigit c := by
      intro c hc
      rcases List.mem_append.1 hc with hc | hc
      · rw [List.eq_of_mem_replicate hc]; exact isDigit_zero
      · exact hdig c hc
    have hM : ∀ c ∈ ['0'] ++ '.' :: (List.replicate (-n).toNat '0' ++ D),
        (c != 'e') = true := by
      intro c hc
      rcases List.mem_append.1 hc with hc | hc
      · rw [List.mem_singleton.1 hc]; decide
      · rcases List.mem_cons.1 hc with hc | hc
        · rw [hc]; decide
        · exact (isDigit_ne c (hF c hc)).1
    have hL : '0' :: '.' :: (List.replicate (-n).toNat '0' ++ D)
        = ['0'] ++ '.' :: (List.replicate (-n).toNat '0' ++ D) := rfl
    have hz : readDigits (['0'] ++ (List.replicate (-n).toNat '0' ++ D)) = s := by
      rw [← List.append_assoc, readDigits_append, hval]
      have h0 : readDigits (['0'] ++ List.replicate (-n).toNat '0') = 0 :=
        readDigits_zeros ((-n).toNat + 1)
      rw [h0]; simp
    rw [List.cons_append, List.cons_append, hL, readUnsigned_plain _ hM,
      readMantissa_point _ _ _ (by simpa using isDigit_zero), hz, List.length_append,
      List.length_replicate]
    congr 2
    omega
  · -- exponent form
    rw [if_neg c3]
    have hE := readExponent_signed (n - 1)
    rcases D with _ | ⟨d, _ | ⟨r, rest⟩⟩
    · exact absurd rfl hne
    · have hW : ∀ c ∈ [d], IsDigit c := hdig
      have hL : d :: 'e' :: (if n - 1 < 0 then '-' else '+') :: Nat.toDigits 10 (n - 1).natAbs
          = [d] ++ 'e' :: (if n - 1 < 0 then '-' else '+') :: Nat.toDigits 10 (n - 1).natAbs :=
        rfl
      simp only
      rw [hL, readUnsigned_exp _ _ (ne_e_of_digits _ hW), readMantissa_whole _ _ hW, hE, hval]
      simp
    · have hW : ∀ c ∈ [d], IsDigit c := fun c hc => hdig c (by simp at hc; simp [hc])
      have hF : ∀ c ∈ r :: rest, IsDigit c := fun c hc => hdig c (List.mem_cons_of_mem _ hc)
      have hM : ∀ c ∈ [d] ++ '.' :: (r :: rest), (c != 'e') = true := by
        intro c hc
        rcases List.mem_append.1 hc with hc | hc
        · exact (isDigit_ne c (hW c hc)).1
        · rcases List.mem_cons.1 hc with hc | hc
          · rw [hc]; decide
          · exact (isDigit_ne c (hF c hc)).1
      have hL : d :: '.' :: (r :: rest)
            ++ 'e' :: (if n - 1 < 0 then '-' else '+') :: Nat.toDigits 10 (n - 1).natAbs
          = ([d] ++ '.' :: (r :: rest))
            ++ 'e' :: (if n - 1 < 0 then '-' else '+') :: Nat.toDigits 10 (n - 1).natAbs :=
        rfl
      simp only
      rw [hL, readUnsigned_exp _ _ hM, readMantissa_point _ _ _ hW, hE]
      have hv : readDigits ([d] ++ r :: rest) = s := hval
      rw [hv]
      congr 2
      simp only [List.length_cons]
      push_cast
      ring


theorem digitsToString_head (s : Nat) (n : Int) :
    ∃ c rest, (JSNumber.digitsToString s n).data = c :: rest ∧ IsDigit c := by
  obtain ⟨hne, hdig, _⟩ := toDigits_spec s
  unfold JSNumber.digitsToString
  generalize Nat.toDigits 10 s = D at hne hdig
  simp only
  rcases D with _ | ⟨d, rest⟩
  · exact absurd rfl hne
  have hd : IsDigit d := hdig d (by simp)
  by_cases c1 : ((d :: rest).length : Int) ≤ n ∧ n ≤ 21
  · rw [if_pos c1]; exact ⟨d, _, rfl, hd⟩
  rw [if_neg c1]
  by_cases c2 : 0 < n ∧ n ≤ 21
  · rw [if_pos c2]
    obtain ⟨m, hm⟩ : ∃ m, n.toNat = m + 1 := ⟨n.toNat - 1, by omega⟩
    rw [hm]
    exact ⟨d, _, rfl, hd⟩
  rw [if_neg c2]
  by_cases c3 : -6 < n ∧ n ≤ 0
  · rw [if_pos c3]; exact ⟨'0', _, rfl, isDigit_zero⟩
  rw [if_neg c3]
  rcases rest with _ | ⟨r, rest⟩
  · exact ⟨d, _, rfl, hd⟩
  · exact ⟨d, _, rfl, hd⟩

theorem readNumberText_digitsToString (s : Nat) (n : Int) :
    readNumberText (JSNumber.digitsToString s n)
      = (s : ℚ) * 10 ^ (n - ((Nat.toDigits 10 s).length : Int)) := by
  obtain ⟨c, rest, h, hc⟩ := digitsToString_head s n
  have hminus : c ≠ '-' := by
    rintro rfl
    revert hc
    unfold IsDigit
    decide
  rw [← readUnsigned_digitsToString]
  unfold readNumberText
  rw [h]
  split
  · rename_i heq
    simp only [List.cons.injEq] at heq
    exact absurd heq.1 hminus
  · rfl

theorem readNumberText_minus (t : String) :
    readNumberText ("-" ++ t) = -readUnsigned t.data := by
  unfold readNumberText
  have h : ("-" ++ t).data = '-' :: t.data := by simp [String.data_append]
  rw [h]
  split
  · rename_i heq
    simp only [List.cons.injEq, true_and] at heq
    rw [heq]
  · rename_i hno
    exact absurd rfl (hno t.data)

theorem readUnsigned_of_head (t : String) (c : Char) (rest : List Char)
    (h : t.data = c :: rest) (hc : IsDigit c) : readNumberText t = readUnsigned t.data := by
  have hminus : c ≠ '-' := by
    rintro rfl
    revert hc
    unfold IsDigit
    decide
  unfold readNumberText
  rw [h]
  split
  · rename_i heq
    simp only [List.cons.injEq] at heq
    exact absurd heq.1 hminus
  · rfl

/-- The text of a Number that has a value denotes exactly that value: the
conversion neither rounds nor truncates. -/
theorem toString_exact (x : JSNumber) (v : ℚ) (h : x.value = some v) :
    readNumberText x.toString = v := by
  cases x with
  | nan => simp [JSNumber.value] at h
  | infinity b => simp [JSNumber.value] at h
  | zero b =>
    simp only [JSNumber.value, Option.some.injEq] at h
    rw [← h, JSNumber.toString, readUnsigned_of_head "0" '0' [] rfl isDigit_zero]
    have h0 : ∀ c ∈ ['0'], IsDigit c := by simpa using isDigit_zero
    have hd : ("0" : String).data = ['0'] := rfl
    rw [hd, readUnsigned_plain _ (ne_e_of_digits _ h0), readMantissa_whole _ _ h0]
    have hz : readDigits ['0'] = 0 := by decide
    simp [hz]
  | finite neg s n =>
    cases neg with
    | false =>
      simp only [JSNumber.value, Option.some.injEq] at h
      rw [← h, JSNumber.toString, readNumberText_digitsToString]
    | true =>
      simp only [JSNumber.value, Option.some.injEq] at h
      rw [← h, JSNumber.toString, readNumberText_minus, readUnsigned_digitsToString]

/-! ## The claims -/

/-- C1, as stated, fails in its scenario: after HTTP 200 with the document
`{homePower:2.3, homeRaw:2312, wallboxPower:7.4, wallboxCurrent:32, error:""}` on
the page as served, the cells read `2.3`, U+202F, `kW`, then `7.4`, U+202F, `kW`
and `(32`, U+202F, `A)`: the markup separates value and unit by a narrow no-break
space, so the cell texts are not the strings `2.3 kW`, `7.4 kW` and `(32 A)` with
an ordinary space. -/
theorem C1_counterexample :
    (updateValues v8 (.resolved ⟨200, .ok scenario.toDocument⟩) html_page).display.homeValueCell
      = "2.3\u202fkW" ∧
    (updateValues v8 (.resolved ⟨200, .ok scenario.toDocument⟩) html_page).display.homeValueCell
      ≠ "2.3 kW" ∧
    (updateValues v8 (.resolved ⟨200, .ok scenario.toDocument⟩)
      html_page).display.wallboxValueCell ≠ "7.4 kW" ∧
    (updateValues v8 (.resolved ⟨200, .ok scenario.toDocument⟩)
      html_page).display.wallboxExtraCell ≠ "(32 A)" := by
  decide

/-- C1, amended. For every prior page and every response with a success status
whose parsed body is a well-formed status document, `updateValues` completes with
the four numeric elements holding exactly the text form of `homePower`, `homeRaw`,
`wallboxPower` and `wallboxCurrent`, a text that denotes the very value of the
reading (nothing is rounded or cut off); the four cells show these texts with the
markup around them, the unit after the character U+202F; and when the document's
`error` is the empty string the error block has no text and is not rendered. -/
theorem C1_render_status_document (E : Engine) (prior : Display) (r : Response)
    (data : JSValue) (s : StatusSnapshot)
    (hok : r.ok = true) (hjson : r.json = .ok data) (hdoc : IsStatusDocument data s) :
    ∃ d, updateValues E (.resolved r) prior = .normal d ∧
      d.home_power = s.homePower.toString ∧
      d.home_raw = s.homeRaw.toString ∧
      d.wallbox_power = s.wallboxPower.toString ∧
      d.wallbox_current = s.wallboxCurrent.toString ∧
      (∀ v, s.homePower.value = some v → readNumberText d.home_power = v) ∧
      (∀ x v, s.homeRaw = .numeric x → x.value = some v → readNumberText d.home_raw = v) ∧
      (∀ v, s.wallboxPower.value = some v → readNumberText d.wallbox_power = v) ∧
      (∀ v, s.wallboxCurrent.value = some v → readNumberText d.wallbox_current = v) ∧
      (s.error = "" → d.error_block = "" ∧ d.errorBlockVisible = false) ∧
      d.homeValueCell = s.homePower.toString ++ "\u202f" ++ "kW" ∧
      d.homeExtraCell = "(raw: " ++ s.homeRaw.toString ++ ")" ∧
      d.wallboxValueCell = s.wallboxPower.toString ++ "\u202f" ++ "kW" ∧
      d.wallboxExtraCell = "(" ++ s.wallboxCurrent.toString ++ "\u202f" ++ "A)" := by
  refine ⟨s.render, updateValues_statusDocument E r prior data s hok hjson hdoc,
    rfl, rfl, rfl, rfl, ?_, ?_, ?_, ?_, ?_, rfl, rfl, rfl, rfl⟩
  · exact fun v hv => toString_exact _ v hv
  · intro x v hx hv
    simp only [StatusSnapshot.render, hx, RawReading.toString]
    exact toString_exact x v hv
  · exact fun v hv => toString_exact _ v hv
  · exact fun v hv => toString_exact _ v hv
  · intro he
    simp [StatusSnapshot.render, Display.errorBlockVisible, he]

/-- C1 amended, on the scenario of the specification: HTTP 200 with the document
`{homePower:2.3, homeRaw:2312, wallboxPower:7.4, wallboxCurrent:32, error:""}` on
the page as served leaves `2.3`, `2312`, `7.4` and `32` in the four elements, which
read back as 23/10, 2312, 74/10 and 32; the cells show `2.3`, U+202F, `kW`, then
`(raw: 2312)`, then `7.4`, U+202F, `kW`, then `(32`, U+202F, `A)`; and no error
block is rendered. -/
theorem C1_render_status_document_witness :
    ∃ d, updateValues v8 (.resolved ⟨200, .ok scenario.toDocument⟩) html_page = .normal d ∧
      d.home_power = "2.3" ∧ d.home_raw = "2312" ∧
      d.wallbox_power = "7.4" ∧ d.wallbox_current = "32" ∧
      d.homeValueCell = "2.3\u202fkW" ∧ d.homeExtraCell = "(raw: 2312)" ∧
      d.wallboxValueCell = "7.4\u202fkW" ∧ d.wallboxExtraCell = "(32\u202fA)" ∧
      readNumberText d.home_power = 23 / 10 ∧ readNumberText d.home_raw = 2312 ∧
      readNumberText d.wallbox_power = 74 / 10 ∧ readNumberText d.wallbox_current = 32 ∧
      d.errorBlockVisible = false := by
  obtain ⟨d, hd, h1, h2, h3, h4, v1, v2, v3, v4, h5, c1, c2, c3, c4⟩ :=
    C1_render_status_document v8 html_page ⟨200, .ok scenario.toDocument⟩
      scenario.toDocument scenario (by decide) rfl (isStatusDocument_toDocument scenario)
  have l2 : (Nat.toDigits 10 23).length = 2 := by decide
  have l4 : (Nat.toDigits 10 2312).length = 4 := by decide
  have l74 : (Nat.toDigits 10 74).length = 2 := by decide
  have l32 : (Nat.toDigits 10 32).length = 2 := by decide
  refine ⟨d, hd, ?_, ?_, ?_, ?_, ?_, ?_, ?_, ?_, v1 _ ?_, v2 _ _ rfl ?_, v3 _ ?_, v4 _ ?_,
    (h5 rfl).2⟩
  · rw [h1]; decide
  · rw [h2]; decide
  · rw [h3]; decide
  · rw [h4]; decide
  · rw [c1]; decide
  · rw [c2]; decide
  · rw [c3]; decide
  · rw [c4]; decide
  · simp only [scenario, JSNumber.value, l2]; norm_num
  · simp only [JSNumber.value, l4]; norm_num
  · simp only [scenario, JSNumber.value, l74]; norm_num
  · simp only [scenario, JSNumber.value, l32]; norm_num

/-- C2, as stated, fails: a response with status 201, which is not 200, and the
scenario document as body is rendered like a success. On the page as served the
four numeric elements change and the error block gets the empty text, which does
not start with the failure text. -/
theorem C2_counterexample :
    (Response.mk 201 (.ok scenario.toDocument)).status ≠ 200 ∧
    updateValues v8 (.resolved ⟨201, .ok scenario.toDocument⟩) html_page
      = .normal { home_power := "2.3", home_raw := "2312", wallbox_power := "7.4",
                  wallbox_current := "32", error_block := "" } ∧
    (updateValues v8 (.resolved ⟨201, .ok scenario.toDocument⟩) html_page).display.home_power
      ≠ html_page.home_power ∧
    ¬ ∃ rest,
      (updateValues v8 (.resolved ⟨201, .ok scenario.toDocument⟩) html_page).display.error_block
        = failureText ++ rest := by
  refine ⟨by decide, by decide, by decide, ?_⟩
  rintro ⟨rest, h⟩
  have hlen := congrArg String.length h
  rw [String.length_append] at hlen
  have h0 : (updateValues v8 (.resolved ⟨201, .ok scenario.toDocument⟩)
      html_page).display.error_block.length = 0 := by decide
  have h1 : failureText.length = 34 := by decide
  omega

/-- C2, amended. For every response whose status code lies outside the range
200 to 299, whatever the body, and for every response whose body the JSON parser
rejects, whatever the status code (a 204 reaches the script without a body, which
the parser rejects), the cycle is a failure: the error block becomes a text that
starts with the failure text, and the four numeric elements keep their values. -/
theorem C2_failure_status (E : Engine) (prior : Display) (r : Response)
    (h : (r.status < 200 ∨ 299 < r.status) ∨ ∃ err, r.json = .error err) :
    ∃ rest, updateValues E (.resolved r) prior
      = .normal { prior with error_block := failureText ++ rest } := by
  cases hok : r.ok with
  | false => exact ⟨_, updateValues_failure_status E r prior hok⟩
  | true =>
    rcases h with h | ⟨err, herr⟩
    · rw [(response_ok_false_iff r).2 h] at hok
      cases hok
    · exact ⟨_, updateValues_json_error E r prior err hok herr⟩

/-- C2 amended, on examples: status 404 with a body that would parse, and
status 204, which comes without a body so that the parser rejects, both leave
the served page with a text that starts with the failure text in the error
block and the four dashes in place. -/
theorem C2_failure_status_witness :
    (∃ rest, updateValues v8 (.resolved ⟨404, .ok scenario.toDocument⟩) html_page
        = .normal { html_page with error_block := failureText ++ rest }) ∧
    (∃ rest, updateValues v8
        (.resolved ⟨204, .error ⟨"SyntaxError", "Unexpected end of JSON input"⟩⟩) html_page
        = .normal { html_page with error_block := failureText ++ rest }) :=
  ⟨C2_failure_status v8 html_page ⟨404, .ok scenario.toDocument⟩ (Or.inl (by decide)),
   C2_failure_status v8 html_page
     ⟨204, .error ⟨"SyntaxError", "Unexpected end of JSON input"⟩⟩ (Or.inr ⟨_, rfl⟩)⟩

/-- C3, as stated, fails: for an HTTP 500 response the error block is the failure
text followed by `Error: 500`, not by `500` alone. -/
theorem C3_counterexample :
    (Response.mk 500 (.ok scenario.toDocument)).ok = false ∧
    (updateValues v8 (.resolved ⟨500, .ok scenario.toDocument⟩) html_page).display.error_block
      = "Failed to update wall-eno status: Error: 500" ∧
    (updateValues v8 (.resolved ⟨500, .ok scenario.toDocument⟩) html_page).display.error_block
      ≠ "Failed to update wall-eno status: " ++ Nat.repr 500 := by
  decide

/-- C3, amended. For every response whose status code `n` is outside the range
200 to 299, the error block after the cycle is exactly the failure text followed
by `Error: ` and the decimal form of `n`, and the rest of the page is unchanged. -/
theorem C3_failure_status_text (E : Engine) (prior : Display) (r : Response)
    (h : r.status < 200 ∨ 299 < r.status) :
    updateValues E (.resolved r) prior
      = .normal { prior with error_block :=
          "Failed to update wall-eno status: " ++ ("Error: " ++ Nat.repr r.status) } := by
  rw [updateValues_failure_status E r prior ((response_ok_false_iff r).2 h),
    statusError_toString]
  rfl

/-- C3 amended, on the scenario: an HTTP 500 response yields exactly
`Failed to update wall-eno status: Error: 500`. -/
theorem C3_failure_status_text_witness :
    updateValues v8 (.resolved ⟨500, .error ⟨"SyntaxError", "Unexpected end of JSON input"⟩⟩)
        html_page
      = .normal { html_page with
          error_block := "Failed to update wall-eno status: Error: 500" } :=
  C3_failure_status_text v8 html_page
    ⟨500, .error ⟨"SyntaxError", "Unexpected end of JSON input"⟩⟩ (by decide)

/-- C4. For every response with a success status whose body the JSON parser
rejects with the error `err`, the error block after the cycle is the failure text
followed by the description of `err` (its name and message, as the string form of
an error gives them), and the four numeric elements are those of the prior page. -/
theorem C4_invalid_json (E : Engine) (prior : Display) (r : Response) (err : JSError)
    (hok : r.ok = true) (hjson : r.json = .error err) :
    ∃ d, updateValues E (.resolved r) prior = .normal d ∧
      d.error_block = "Failed to update wall-eno status: " ++ err.toString ∧
      d.home_power = prior.home_power ∧ d.home_raw = prior.home_raw ∧
      d.wallbox_power = prior.wallbox_power ∧ d.wallbox_current = prior.wallbox_current :=
  ⟨_, updateValues_json_error E r prior err hok hjson, rfl, rfl, rfl, rfl, rfl⟩

/-- C4, on an example: an HTML body answered with status 200 on the served page. -/
theorem C4_invalid_json_witness :
    ∃ d, updateValues v8
        (.resolved ⟨200, .error ⟨"SyntaxError", "Unexpected token < in JSON at position 0"⟩⟩)
        html_page = .normal d ∧
      d.error_block = "Failed to update wall-eno status: "
        ++ "SyntaxError: Unexpected token < in JSON at position 0" ∧
      d.home_power = "-" ∧ d.home_raw = "-" ∧ d.wallbox_power = "-" ∧
      d.wallbox_current = "-" :=
  C4_invalid_json v8 html_page
    ⟨200, .error ⟨"SyntaxError", "Unexpected token < in JSON at position 0"⟩⟩
    ⟨"SyntaxError", "Unexpected token < in JSON at position 0"⟩ (by decide) rfl

/-- C5. For every response with a success status whose parsed body is a
well-formed status document with a non-empty `error` string, the error block
after the cycle is exactly that string, without the failure text in front, and
the four numeric elements hold the text form of the document's four readings. -/
theorem C5_device_error_verbatim (E : Engine) (prior : Display) (r : Response)
    (data : JSValue) (s : StatusSnapshot)
    (hok : r.ok = true) (hjson : r.json = .ok data) (hdoc : IsStatusDocument data s)
    (herr : s.error ≠ "") :
    ∃ d, updateValues E (.resolved r) prior = .normal d ∧
      d.error_block = s.error ∧ d.errorBlockVisible = true ∧
      d.home_power = s.homePower.toString ∧ d.home_raw = s.homeRaw.toString ∧
      d.wallbox_power = s.wallboxPower.toString ∧
      d.wallbox_current = s.wallboxCurrent.toString := by
  refine ⟨s.render, updateValues_statusDocument E r prior data s hok hjson hdoc,
    rfl, ?_, rfl, rfl, rfl, rfl⟩
  simp [StatusSnapshot.render, Display.errorBlockVisible, herr]

/-- C5, on the scenario: the error `wallbox offline` with HTTP 200 shows exactly
`wallbox offline`, and the numeric elements are updated. -/
theorem C5_device_error_verbatim_witness :
    ∃ d, updateValues v8
        (.resolved ⟨200, .ok ({ scenario with error := "wallbox offline" }).toDocument⟩)
        html_page = .normal d ∧
      d.error_block = "wallbox offline" ∧ d.errorBlockVisible = true ∧
      d.home_power = "2.3" ∧ d.home_raw = "2312" ∧
      d.wallbox_power = "7.4" ∧ d.wallbox_current = "32" :=
  C5_device_error_verbatim v8 html_page
    ⟨200, .ok ({ scenario with error := "wallbox offline" }).toDocument⟩
    ({ scenario with error := "wallbox offline" }).toDocument
    { scenario with error := "wallbox offline" } (by decide) rfl
    (isStatusDocument_toDocument _) (by decide)

/-- C6, as stated, fails: with status 200 and a body whose `homeRaw` is an object
with a `toString` key, the cycle writes `home-power`, throws while converting
`homeRaw`, and ends in the `catch` block. On the page as served one numeric
element is written from the document, the other three keep their values, and
the error block holds the failure text: the result is neither of the two. -/
theorem C6_counterexample :
    updateValues v8 (.resolved ⟨200, .ok oddRawDocument⟩) html_page
      = .normal { home_power := "1", home_raw := "-", wallbox_power := "-",
                  wallbox_current := "-",
                  error_block := "Failed to update wall-eno status: "
                    ++ "TypeError: Cannot convert object to primitive value" } ∧
    (updateValues v8 (.resolved ⟨200, .ok oddRawDocument⟩) html_page).display.home_power
      ≠ html_page.home_power ∧
    (updateValues v8 (.resolved ⟨200, .ok oddRawDocument⟩) html_page).display.wallbox_power
      = html_page.wallbox_power ∧
    readText v8 oddRawDocument "wallboxPower" = .ok (some "2") ∧
    ¬ AllWritten v8 (.resolved ⟨200, .ok oddRawDocument⟩) html_page ∧
    ¬ OnlyErrorWritten v8 (.resolved ⟨200, .ok oddRawDocument⟩) html_page := by
  refine ⟨by decide, by decide, by decide, rfl, ?_, ?_⟩
  · rintro ⟨r, data, t1, t2, t3, t4, t5, ho, _, hj, _, h2, _⟩
    cases ho
    cases hj
    cases h2
  · rintro ⟨err, ht, _⟩
    have hd := congrArg Completion.display ht
    have hp : (tryBlock v8 (.resolved ⟨200, .ok oddRawDocument⟩)
        html_page).display.home_power = html_page.home_power :=
      congrArg Display.home_power hd
    revert hp
    decide

/-- C6, amended. For every poll outcome in which none of the properties
`homeRaw`, `wallboxPower`, `wallboxCurrent` and `error` of the parsed body is a
value whose conversion to text throws, and every prior page, the cycle has
exactly one of two results: all four numeric elements and the error block are
written from the parsed body, or the page is the prior page with only the error
block changed, to the failure text followed by the string form of the caught
error. -/
theorem C6_all_or_error_only (E : Engine) (prior : Display) (o : FetchOutcome)
    (hconv : ∀ r data, o = .resolved r → r.json = .ok data →
      ∀ key, key ∈ ["homeRaw", "wallboxPower", "wallboxCurrent", "error"] →
        ∀ v, JSValue.get E data key = .ok v → ∃ t, JSValue.toDOMString E v = .ok t) :
    (AllWritten E o prior ∨ OnlyErrorWritten E o prior) ∧
    ¬ (AllWritten E o prior ∧ OnlyErrorWritten E o prior) := by
  refine ⟨?_, not_allWritten_and_onlyErrorWritten E o prior⟩
  cases o with
  | rejected err => exact Or.inr (onlyErrorWritten_of_throw E _ prior err rfl)
  | resolved r =>
    cases hok : r.ok with
    | false =>
      exact Or.inr (onlyErrorWritten_of_throw E _ prior _ (by simp [tryBlock, hok]; rfl))
    | true =>
      cases hj : r.json with
      | error err =>
        exact Or.inr (onlyErrorWritten_of_throw E _ prior err (by simp [tryBlock, hok, hj]))
      | ok data =>
        cases h1 : readText E data "homePower" with
        | error err =>
          exact Or.inr (onlyErrorWritten_of_throw E _ prior err
            (by simp [tryBlock, hok, hj, Completion.andThen, assignProperty_eq, h1]))
        | ok t1 =>
          have hget : ∃ v1, JSValue.get E data "homePower" = .ok v1 := by
            unfold readText at h1
            cases hg : JSValue.get E data "homePower" with
            | error e => simp [hg] at h1
            | ok v => exact ⟨v, rfl⟩
          obtain ⟨v1, hv1⟩ := hget
          have later : ∀ key, key ∈ ["homeRaw", "wallboxPower", "wallboxCurrent", "error"] →
              ∃ t, readText E data key = .ok t := by
            intro key hkey
            obtain ⟨v, hv⟩ := get_ok_of_get_ok E data "homePower" key v1 hv1
            obtain ⟨t, ht⟩ := hconv r data rfl hj key hkey v hv
            exact ⟨t, by simp [readText, hv, ht]⟩
          obtain ⟨t2, h2⟩ := later "homeRaw" (by simp)
          obtain ⟨t3, h3⟩ := later "wallboxPower" (by simp)
          obtain ⟨t4, h4⟩ := later "wallboxCurrent" (by simp)
          obtain ⟨t5, h5⟩ := later "error" (by simp)
          exact Or.inl ⟨r, data, t1, t2, t3, t4, t5, rfl, hok, hj, h1, h2, h3, h4, h5,
            updateValues_written E r prior data t1 t2 t3 t4 t5 hok hj h1 h2 h3 h4 h5⟩

/-- C6 amended, on an example: the body without `wallboxCurrent`, answered with
status 200 on the served page; the property that is absent converts to the
missing text, so the premise holds. -/
theorem C6_all_or_error_only_witness :
    (AllWritten v8 (.resolved ⟨200, .ok shortDocument⟩) html_page ∨
      OnlyErrorWritten v8 (.resolved ⟨200, .ok shortDocument⟩) html_page) ∧
    ¬ (AllWritten v8 (.resolved ⟨200, .ok shortDocument⟩) html_page ∧
      OnlyErrorWritten v8 (.resolved ⟨200, .ok shortDocument⟩) html_page) := by
  apply C6_all_or_error_only v8 html_page (.resolved ⟨200, .ok shortDocument⟩)
  intro r data ho hj key hkey v hv
  cases ho
  cases hj
  simp only [List.mem_cons, List.mem_singleton, List.not_mem_nil, or_false] at hkey
  rcases hkey with rfl | rfl | rfl | rfl <;>
    (cases hv; exact ⟨_, rfl⟩)

/-- C7, as stated, fails: with status 200 and a valid JSON object that lacks
`wallboxCurrent`, the cycle is not a failure. On the page as served the three
numeric elements whose keys are present are updated, `wallbox-current` is
blanked, and the error block gets the empty text, not the failure text. -/
theorem C7_counterexample :
    updateValues v8 (.resolved ⟨200, .ok shortDocument⟩) html_page
      = .normal { home_power := "2.3", home_raw := "2312", wallbox_power := "7.4",
                  wallbox_current := "", error_block := "" } ∧
    html_page.wallbox_current = "-" ∧
    (updateValues v8 (.resolved ⟨200, .ok shortDocument⟩) html_page).display.home_power
      ≠ html_page.home_power ∧
    ¬ ∃ rest,
      (updateValues v8 (.resolved ⟨200, .ok shortDocument⟩) html_page).display.error_block
        = failureText ++ rest := by
  refine ⟨by decide, by decide, by decide, ?_⟩
  rintro ⟨rest, h⟩
  have hlen := congrArg String.length h
  rw [String.length_append] at hlen
  have h0 : (updateValues v8 (.resolved ⟨200, .ok shortDocument⟩)
      html_page).display.error_block.length = 0 := by decide
  have h1 : failureText.length = 34 := by decide
  omega

/-- C7, amended. For every response with a success status whose body is valid
JSON: when the parsed value is `null`, the cycle is a failure, the error block
becomes the failure text followed by the description of the `TypeError` of the
first property read, and the numeric elements are unchanged. No other shape is
checked: when the parsed value is an object in which each of the five keys is
absent or holds a number or a string, every element is written with the text of
its property, the empty text where the key is absent; when it is a number, a
string, a boolean or an array, all five elements are written with the empty text. -/
theorem C7_shape_not_checked (E : Engine) (prior : Display) (r : Response) (data : JSValue)
    (hok : r.ok = true) (hjson : r.json = .ok data) :
    (data = .null →
      updateValues E (.resolved r) prior
        = .normal { prior with
            error_block := failureText
              ++ JSError.toString ⟨"TypeError", E.nullAccessMessage "homePower"⟩ }) ∧
    (∀ props t1 t2 t3 t4 t5, data = .object props →
      shownText (props.lookup "homePower") = some t1 →
      shownText (props.lookup "homeRaw") = some t2 →
      shownText (props.lookup "wallboxPower") = some t3 →
      shownText (props.lookup "wallboxCurrent") = some t4 →
      shownText (props.lookup "error") = some t5 →
      updateValues E (.resolved r) prior
        = .normal { home_power := t1, home_raw := t2, wallbox_power := t3,
                    wallbox_current := t4, error_block := t5 }) ∧
    ((∃ x, data = .number x) ∨ (∃ s, data = .string s) ∨ (∃ b, data = .bool b) ∨
        (∃ items, data = .array items) →
      updateValues E (.resolved r) prior
        = .normal { home_power := "", home_raw := "", wallbox_power := "",
                    wallbox_current := "", error_block := "" }) := by
  refine ⟨?_, ?_, ?_⟩
  · intro hnull
    subst hnull
    exact updateValues_first_read_error E r prior .null _ hok hjson
      (by simp [readText, JSValue.get])
  · intro props t1 t2 t3 t4 t5 hobj h1 h2 h3 h4 h5
    subst hobj
    obtain ⟨u1, r1, e1⟩ := readText_shown E props _ t1 h1
    obtain ⟨u2, r2, e2⟩ := readText_shown E props _ t2 h2
    obtain ⟨u3, r3, e3⟩ := readText_shown E props _ t3 h3
    obtain ⟨u4, r4, e4⟩ := readText_shown E props _ t4 h4
    obtain ⟨u5, r5, e5⟩ := readText_shown E props _ t5 h5
    rw [updateValues_written E r prior _ u1 u2 u3 u4 u5 hok hjson r1 r2 r3 r4 r5,
      e1, e2, e3, e4, e5]
  · intro hkind
    have hr := fun key => readText_nonObject E data key hkind
    rw [updateValues_written E r prior data none none none none none hok hjson
      (hr _) (hr _) (hr _) (hr _) (hr _)]
    rfl

/-- C7 amended, on examples with status 200 on the served page: the body `null`,
the object without `wallboxCurrent`, and the body `5`. -/
theorem C7_shape_not_checked_witness :
    updateValues v8 (.resolved ⟨200, .ok .null⟩) html_page
      = .normal { html_page with error_block := "Failed to update wall-eno status: "
          ++ "TypeError: Cannot read properties of null (reading \x27homePower\x27)" } ∧
    updateValues v8 (.resolved ⟨200, .ok shortDocument⟩) html_page
      = .normal { home_power := "2.3", home_raw := "2312", wallbox_power := "7.4",
                  wallbox_current := "", error_block := "" } ∧
    updateValues v8 (.resolved ⟨200, .ok (.number (.finite false 5 1))⟩) html_page
      = .normal { home_power := "", home_raw := "", wallbox_power := "",
                  wallbox_current := "", error_block := "" } :=
  ⟨(C7_shape_not_checked v8 html_page ⟨200, .ok .null⟩ .null (by decide) rfl).1 rfl,
   (C7_shape_not_checked v8 html_page ⟨200, .ok shortDocument⟩ shortDocument
      (by decide) rfl).2.1 _ "2.3" "2312" "7.4" "" "" rfl rfl rfl rfl rfl rfl,
   (C7_shape_not_checked v8 html_page ⟨200, .ok (.number (.finite false 5 1))⟩ _
      (by decide) rfl).2.2 (Or.inl ⟨_, rfl⟩)⟩

/-- C8. For every poll outcome and every prior page the call of `updateValues`
completes normally, and whatever the `try` block throws is turned into a write of
the error block. Hence in a run of the start sequence (one immediate cycle, then
one per tick of the timer) no error escapes a cycle, the timer stays registered
with its period of 6000 ms, and the cycles start at 0, 6000, 12000, ... ms,
one for every outcome, failed or not. -/
theorem C8_no_error_escapes (E : Engine) (prior : Display) (o first : FetchOutcome)
    (later : List FetchOutcome) :
    (∃ d, updateValues E o prior = .normal d) ∧
    (∀ err d1, tryBlock E o prior = .throw err d1 →
      updateValues E o prior
        = .normal { d1 with error_block := failureText ++ err.toString }) ∧
    (start E prior first later).escaped = [] ∧
    (start E prior first later).timer = some 6000 ∧
    (start E prior first later).started.reverse
      = (List.range (later.length + 1)).map (fun k => k * 6000) := by
  refine ⟨updateValues_normal E o prior, ?_, ?_⟩
  · intro err d1 h
    simp [updateValues, h, catchBlock_eq]
  · obtain ⟨i1, i2, i3⟩ := ticks_spec E UPDATE_INTERVAL later
      { ({ display := prior, timer := none, started := [], escaped := [] } : Page).cycle
          E 0 first with timer := some UPDATE_INTERVAL } 0 rfl
    refine ⟨?_, i1, ?_⟩
    · simp only [start]
      rw [i2]
      exact cycle_escaped E _ 0 first
    · simp only [start]
      rw [i3, cycle_started, List.range_succ_eq_map, List.map_cons, List.map_map]
      simp only [List.reverse_cons, List.reverse_nil, List.nil_append, List.singleton_append,
        zero_mul, List.cons.injEq, true_and]
      apply List.map_congr_left
      intro k _
      simp [UPDATE_INTERVAL]

/-- C8, on an example: a transport error on the served page, then a run of
three cycles of which the last two fail. -/
theorem C8_no_error_escapes_witness :
    updateValues v8 (.rejected ⟨"TypeError", "Failed to fetch"⟩) html_page
      = .normal { html_page with error_block :=
          "Failed to update wall-eno status: TypeError: Failed to fetch" } ∧
    (start v8 html_page (.resolved ⟨200, .ok scenario.toDocument⟩)
      [.rejected ⟨"TypeError", "Failed to fetch"⟩,
       .resolved ⟨503, .error ⟨"SyntaxError", "Unexpected end of JSON input"⟩⟩]).started.reverse
      = [0, 6000, 12000] :=
  ⟨(C8_no_error_escapes v8 html_page (.rejected ⟨"TypeError", "Failed to fetch"⟩)
      (.rejected ⟨"TypeError", "Failed to fetch"⟩) []).2.1 _ _ rfl,
   (C8_no_error_escapes v8 html_page (.rejected ⟨"TypeError", "Failed to fetch"⟩)
      (.resolved ⟨200, .ok scenario.toDocument⟩)
      [.rejected ⟨"TypeError", "Failed to fetch"⟩,
       .resolved ⟨503, .error ⟨"SyntaxError", "Unexpected end of JSON input"⟩⟩]).2.2.2.2⟩

/-- C9. For every prior page and every payload that arrives with a success
status and parses, a second cycle with the same payload, run on the page the
first cycle left, leaves that page as it is: all five elements after the second
cycle equal those after the first. -/
theorem C9_same_payload_twice (E : Engine) (prior : Display) (r : Response)
    (data : JSValue) (hok : r.ok = true) (hjson : r.json = .ok data) :
    updateValues E (.resolved r) (updateValues E (.resolved r) prior).display
      = updateValues E (.resolved r) prior ∧
    (∀ s, IsStatusDocument data s →
      updateValues E (.resolved r) prior = .normal s.render ∧
      updateValues E (.resolved r) s.render = .normal s.render) :=
  ⟨updateValues_idem E (.resolved r) prior,
   fun s hs => ⟨updateValues_statusDocument E r prior data s hok hjson hs,
     updateValues_statusDocument E r s.render data s hok hjson hs⟩⟩

/-- C9, on the scenario document with status 200 on the served page. -/
theorem C9_same_payload_twice_witness :
    updateValues v8 (.resolved ⟨200, .ok scenario.toDocument⟩)
        (updateValues v8 (.resolved ⟨200, .ok scenario.toDocument⟩) html_page).display
      = updateValues v8 (.resolved ⟨200, .ok scenario.toDocument⟩) html_page ∧
    updateValues v8 (.resolved ⟨200, .ok scenario.toDocument⟩) html_page
      = .normal scenario.render ∧
    updateValues v8 (.resolved ⟨200, .ok scenario.toDocument⟩) scenario.render
      = .normal scenario.render :=
  ⟨(C9_same_payload_twice v8 html_page ⟨200, .ok scenario.toDocument⟩ scenario.toDocument
      (by decide) rfl).1,
   (C9_same_payload_twice v8 html_page ⟨200, .ok scenario.toDocument⟩ scenario.toDocument
      (by decide) rfl).2 scenario (isStatusDocument_toDocument scenario)⟩

/-- C10. For every prior page and every two well-formed status documents that
arrive with a success status in two cycles run one after the other, the page
after the second cycle is the rendering of the second document alone: it equals
what the second cycle gives on any other page, so nothing of the first document
remains. -/
theorem C10_second_document_only (E : Engine) (prior other : Display) (r1 r2 : Response)
    (data1 data2 : JSValue) (s1 s2 : StatusSnapshot)
    (hok1 : r1.ok = true) (hjson1 : r1.json = .ok data1) (hdoc1 : IsStatusDocument data1 s1)
    (hok2 : r2.ok = true) (hjson2 : r2.json = .ok data2) (hdoc2 : IsStatusDocument data2 s2) :
    updateValues E (.resolved r1) prior = .normal s1.render ∧
    updateValues E (.resolved r2) (updateValues E (.resolved r1) prior).display
      = .normal s2.render ∧
    updateValues E (.resolved r2) (updateValues E (.resolved r1) prior).display
      = updateValues E (.resolved r2) other :=
  ⟨updateValues_statusDocument E r1 prior data1 s1 hok1 hjson1 hdoc1,
   updateValues_statusDocument E r2 _ data2 s2 hok2 hjson2 hdoc2,
   by rw [updateValues_statusDocument E r2 _ data2 s2 hok2 hjson2 hdoc2,
     updateValues_statusDocument E r2 other data2 s2 hok2 hjson2 hdoc2]⟩

/-- C10, on the scenario: a second poll whose `homePower` is 3.1 instead of 2.3
leaves `3.1` in `home-power` and nothing of `2.3`. -/
theorem C10_second_document_only_witness :
    updateValues v8 (.resolved ⟨200, .ok scenario.toDocument⟩) html_page
      = .normal scenario.render ∧
    updateValues v8
        (.resolved ⟨200, .ok ({ scenario with homePower := .finite false 31 1 }).toDocument⟩)
        (updateValues v8 (.resolved ⟨200, .ok scenario.toDocument⟩) html_page).display
      = .normal { home_power := "3.1", home_raw := "2312", wallbox_power := "7.4",
                  wallbox_current := "32", error_block := "" } ∧
    updateValues v8
        (.resolved ⟨200, .ok ({ scenario with homePower := .finite false 31 1 }).toDocument⟩)
        (updateValues v8 (.resolved ⟨200, .ok scenario.toDocument⟩) html_page).display
      = updateValues v8
        (.resolved ⟨200, .ok ({ scenario with homePower := .finite false 31 1 }).toDocument⟩)
        html_page :=
  C10_second_document_only v8 html_page html_page ⟨200, .ok scenario.toDocument⟩
    ⟨200, .ok ({ scenario with homePower := .finite false 31 1 }).toDocument⟩
    scenario.toDocument ({ scenario with homePower := .finite false 31 1 }).toDocument
    scenario { scenario with homePower := .finite false 31 1 }
    (by decide) rfl (isStatusDocument_toDocument _)
    (by decide) rfl (isStatusDocument_toDocument _)

end WallEno
